import Mathlib

/-!
Shallow embedding of the fulfillment-center capacity/bottleneck pipeline
(src/generate_data.py, src/capacity.py, src/bottleneck.py,
src/recommendations.py, src/preprocess.py) and proofs about it.

Numeric columns are modelled as exact rationals; the numpy global random
generator is modelled as an explicit state `RngState` (a seed together with a
stream position), with the underlying pseudo-random stream abstracted as a
pure function of seed and position, and `np.random.seed` as a state reset.
-/

namespace FC

/-- The `1e-6` epsilon constant used in every guarded division of the source. -/
def eps : ℚ := 1 / 1000000

/-- The pandas/numpy `clip(lo, hi)`: clamp `x` into `[lo, hi]`. -/
def clipQ (x lo hi : ℚ) : ℚ := min hi (max lo x)

/-- State of the numpy global generator: the seed set by `np.random.seed`
and the position in the draw stream. -/
structure RngState where
  seed : ℕ
  pos : ℕ
deriving DecidableEq

/-- Model of `np.random.seed s`: resets the global generator, discarding its prior state. -/
def npSeed (s : ℕ) (_ : RngState) : RngState := ⟨s, 0⟩

/-- One draw from the abstract stream `stream` (the next pseudo-random value). -/
def drawQ (stream : ℕ → ℕ → ℚ) (s : RngState) : ℚ × RngState :=
  (stream s.seed s.pos, ⟨s.seed, s.pos + 1⟩)

/-- Model of `np.random.choice` of `k` from `n` without replacement: raises when the sample
is larger than the population, otherwise returns `k` day indices computed by
the generator (abstracted as `choiceFun`) and advances the stream. -/
def npChoiceNoReplace (choiceFun : ℕ → ℕ → ℕ → ℕ → List ℕ) (n k : ℕ)
    (s : RngState) : Except String (List ℕ × RngState) :=
  if n < k then .error "Cannot take a larger sample than population"
  else .ok (choiceFun s.seed s.pos n k, ⟨s.seed, s.pos + k⟩)

/-- One row of the demand table: hour index from the start and demand. -/
structure DemandRow where
  timestamp : ℕ
  demand_units : ℚ
deriving DecidableEq

/-- Day-of-week multiplier: weekend for weekday index ≥ 5. -/
def dowMult (startDow : ℕ) (weekday_multiplier weekend_multiplier : ℚ) (d : ℕ) : ℚ :=
  if 5 ≤ (startDow + d) % 7 then weekend_multiplier else weekday_multiplier

/-- Hourly seasonality multiplier. -/
def hourMult (peak_hours : List ℕ) (peak_multiplier off_peak_multiplier : ℚ) (h : ℕ) : ℚ :=
  if h ∈ peak_hours then peak_multiplier else off_peak_multiplier

/-- Promo-day multiplier: `promo_multiplier` on selected days, else 1. -/
def promoMult (promoIdx : List ℕ) (promo_multiplier : ℚ) (d : ℕ) : ℚ :=
  if d ∈ promoIdx then promo_multiplier else 1

/-- All (day, hour) pairs of the horizon in generation order
(day-major, hour-minor, both ascending). -/
def dayHours : ℕ → List (ℕ × ℕ)
  | 0 => []
  | Nat.succ d => dayHours d ++ (List.range 24).map (fun h => (d, h))

/-- The per-hour loop of `generate_hourly_demand`: for each (day, hour) draw
one multiplicative noise value and emit `max 0 (base * noise)`. -/
def genLoop (stream : ℕ → ℕ → ℚ) (base : ℕ → ℕ → ℚ) :
    List (ℕ × ℕ) → RngState → List DemandRow × RngState
  | [], s => ([], s)
  | dh :: rest, s =>
    let z := stream s.seed s.pos
    let out := genLoop stream base rest ⟨s.seed, s.pos + 1⟩
    (⟨dh.1 * 24 + dh.2, max 0 (base dh.1 dh.2 * z)⟩ :: out.1, out.2)

/-- Embedding of `generate_hourly_demand` (src/generate_data.py): seed the generator, pick
the promo days (one draw batch, before any per-hour draw), then produce one
noised demand value per hour in timestamp order. -/
def generate_hourly_demand (stream : ℕ → ℕ → ℚ)
    (choiceFun : ℕ → ℕ → ℕ → ℕ → List ℕ)
    (startDow num_days : ℕ) (base_demand_mean : ℚ)
    (peak_hours : List ℕ) (peak_multiplier off_peak_multiplier : ℚ)
    (weekday_multiplier weekend_multiplier : ℚ)
    (promo_days : ℕ) (promo_multiplier : ℚ)
    (random_state : ℕ) (g : RngState) :
    Except String (List DemandRow × RngState) :=
  match npChoiceNoReplace choiceFun num_days promo_days (npSeed random_state g) with
  | .error e => .error e
  | .ok (promoIdx, s1) =>
    .ok (genLoop stream
      (fun d h => base_demand_mean / 24
        * dowMult startDow weekday_multiplier weekend_multiplier d
        * hourMult peak_hours peak_multiplier off_peak_multiplier h
        * promoMult promoIdx promo_multiplier d)
      (dayHours num_days) s1)

/-- One row of a step's hourly operational table. -/
structure StepRow where
  timestamp : ℕ
  step : String
  demand_units : ℚ
  capacity_units : ℚ
  processed_units : ℚ
  backlog_units : ℚ
  utilization : ℚ
  cycle_time_min : ℚ
  uph : ℚ
  labor_hours_used : ℚ
  headcount_used : ℤ
deriving DecidableEq

/-- Vectorized draw pass: map `f` over a list, consuming one stream draw per
element in order. -/
def mapDraws (stream : ℕ → ℕ → ℚ) (f : ℚ → ℚ → ℚ) :
    List ℚ → RngState → List ℚ × RngState
  | [], s => ([], s)
  | x :: xs, s =>
    let z := stream s.seed s.pos
    let out := mapDraws stream f xs ⟨s.seed, s.pos + 1⟩
    (f x z :: out.1, out.2)

/-- Lag by position in the chain: pick → 1, pack → 2, anything else → 3. -/
def lagOf (step : String) : ℕ :=
  if step = "pick" then 1 else if step = "pack" then 2 else 3

/-- Arithmetic mean of a rational list (`numpy.mean`). -/
def qmean (l : List ℚ) : ℚ := l.sum / (l.length : ℚ)

/-- Per-step demand derivation: `receive` gets the raw sequence; other steps
get a lag-reduced, 5%-CV noised variant floored at zero. -/
def stepDemand (stream : ℕ → ℕ → ℚ) (step : String) (raw : List ℚ)
    (s : RngState) : List ℚ × RngState :=
  if step = "receive" then (raw, s)
  else mapDraws stream (fun b z => max 0 (b + b * (1 / 20) * z))
    (raw.map (fun x => x * (1 - (1 / 20) * (lagOf step : ℚ)))) s

/-- Congestion factor: `clip(1 + (u − 0.7) (cmax − 1) / 0.3, 1, cmax)`. -/
def congestionFactor (cmax u : ℚ) : ℚ :=
  clipQ (1 + (u - 7 / 10) * (cmax - 1) / (3 / 10)) 1 cmax

/-- Assemble one hourly record of a step from its demand, capacity, processed
and end-of-hour backlog, with the derived utilization / cycle-time / labor
columns. -/
def mkStepRow (step : String) (uphv ctb cmax : ℚ) (t : ℕ) (d c p bl : ℚ) :
    StepRow :=
  { timestamp := t, step := step, demand_units := d, capacity_units := c,
    processed_units := p, backlog_units := bl,
    utilization := clipQ (p / (c + eps)) 0 1,
    cycle_time_min := ctb * congestionFactor cmax (clipQ (p / (c + eps)) 0 1),
    uph := uphv,
    labor_hours_used := p / (uphv + eps),
    headcount_used := Int.ceil (p / (uphv + eps)) }

/-- The sequential backlog-carryover recurrence of `generate_step_data`:
process the hours in order carrying the backlog, fused with row assembly. -/
def buildRows (step : String) (uphv ctb cmax : ℚ) :
    ℚ → List (ℕ × ℚ × ℚ) → List StepRow
  | _, [] => []
  | b, tdc :: rest =>
    mkStepRow step uphv ctb cmax tdc.1 tdc.2.1 tdc.2.2
        (min (tdc.2.1 + b) tdc.2.2)
        (max 0 (tdc.2.1 + b - min (tdc.2.1 + b) tdc.2.2))
      :: buildRows step uphv ctb cmax
        (max 0 (tdc.2.1 + b - min (tdc.2.1 + b) tdc.2.2)) rest

/-- Embedding of `generate_step_data` (src/generate_data.py): seed with
`random_state + hash(step) % 1000` (the Python string hash abstracted as
`hashF`), derive the step demand, draw capacity around
`mean(step_demand) * capacity_base`, apply Bernoulli downtime, floor capacity
at zero, then run the hour-by-hour backlog recurrence. -/
def generate_step_data (stream : ℕ → ℕ → ℚ) (hashF : String → ℕ)
    (demand_df : List DemandRow) (step : String)
    (step_capacity_base capacity_variability_std downtime_probability
     downtime_severity uphv cycle_time_base congestion_multiplier_max : ℚ)
    (random_state : ℕ) (g : RngState) : List StepRow × RngState :=
  let s0 := npSeed (random_state + hashF step % 1000) g
  let sd := stepDemand stream step (demand_df.map (fun r => r.demand_units)) s0
  let cap := mapDraws stream
    (fun _ z => qmean sd.1 * step_capacity_base * (1 + capacity_variability_std * z))
    sd.1 sd.2
  let capD := mapDraws stream
    (fun c z => if z < downtime_probability then c * (1 - downtime_severity) else c)
    cap.1 cap.2
  (buildRows step uphv cycle_time_base congestion_multiplier_max 0
      ((demand_df.map (fun r => r.timestamp)).zip
        (sd.1.zip (capD.1.map (fun c => max 0 c)))),
    capD.2)

theorem genLoop_length (stream : ℕ → ℕ → ℚ) (base : ℕ → ℕ → ℚ) :
    ∀ (l : List (ℕ × ℕ)) (s : RngState),
      ((genLoop stream base l s).1).length = l.length
  | [], _ => rfl
  | _ :: rest, s => by
    simp [genLoop, genLoop_length stream base rest]

theorem dayHours_length : ∀ n : ℕ, (dayHours n).length = 24 * n
  | 0 => rfl
  | Nat.succ d => by
    simp [dayHours, dayHours_length d]
    omega

theorem buildRows_length (step : String) (uphv ctb cmax : ℚ) :
    ∀ (b : ℚ) (l : List (ℕ × ℚ × ℚ)),
      (buildRows step uphv ctb cmax b l).length = l.length
  | _, [] => rfl
  | b, tdc :: rest => by
    simp [buildRows, buildRows_length step uphv ctb cmax _ rest]

theorem buildRows_spec (step : String) (uphv ctb cmax : ℚ) :
    ∀ (l : List (ℕ × ℚ × ℚ)) (b : ℚ) (i : ℕ)
      (h : i < (buildRows step uphv ctb cmax b l).length),
      ((i = 0 →
          (buildRows step uphv ctb cmax b l)[i].processed_units =
            min ((buildRows step uphv ctb cmax b l)[i].demand_units + b)
              (buildRows step uphv ctb cmax b l)[i].capacity_units ∧
          (buildRows step uphv ctb cmax b l)[i].backlog_units =
            max 0 ((buildRows step uphv ctb cmax b l)[i].demand_units + b -
              (buildRows step uphv ctb cmax b l)[i].processed_units)) ∧
        (∀ j (hj : j < (buildRows step uphv ctb cmax b l).length), i = j + 1 →
          (buildRows step uphv ctb cmax b l)[i].processed_units =
            min ((buildRows step uphv ctb cmax b l)[i].demand_units +
                (buildRows step uphv ctb cmax b l)[j].backlog_units)
              (buildRows step uphv ctb cmax b l)[i].capacity_units ∧
          (buildRows step uphv ctb cmax b l)[i].backlog_units =
            max 0 ((buildRows step uphv ctb cmax b l)[i].demand_units +
              (buildRows step uphv ctb cmax b l)[j].backlog_units -
              (buildRows step uphv ctb cmax b l)[i].processed_units) ∧
          (buildRows step uphv ctb cmax b l)[i].processed_units ≤
            (buildRows step uphv ctb cmax b l)[i].demand_units +
              (buildRows step uphv ctb cmax b l)[j].backlog_units))
  | [], b, i, h => by simp [buildRows] at h
  | tdc :: rest, b, 0, h =>
    ⟨fun _ => ⟨rfl, rfl⟩, fun j hj hij => absurd hij (by omega)⟩
  | tdc :: rest, b, Nat.succ n, h => by
    have hn : n < (buildRows step uphv ctb cmax
        (max 0 (tdc.2.1 + b - min (tdc.2.1 + b) tdc.2.2)) rest).length := by
      have := h
      simp only [buildRows, List.length_cons] at this
      omega
    refine ⟨fun h0 => absurd h0 (by omega), fun j hj hij => ?_⟩
    have hjn : j = n := by omega
    subst hjn
    cases j with
    | zero =>
      have hhead := (buildRows_spec step uphv ctb cmax rest
        (max 0 (tdc.2.1 + b - min (tdc.2.1 + b) tdc.2.2)) 0 hn).1 rfl
      refine ⟨?_, ?_, ?_⟩ <;>
        simp only [buildRows, List.getElem_cons_succ, List.getElem_cons_zero, mkStepRow]
      · exact hhead.1
      · exact hhead.2
      · rw [hhead.1]
        exact min_le_left _ _
    | succ m =>
      have htail := (buildRows_spec step uphv ctb cmax rest
        (max 0 (tdc.2.1 + b - min (tdc.2.1 + b) tdc.2.2)) (m + 1)
        (by omega)).2 m (by omega) rfl
      refine ⟨?_, ?_, ?_⟩ <;>
        simp only [buildRows, List.getElem_cons_succ]
      · exact htail.1
      · exact htail.2.1
      · exact htail.2.2

/-- C2: in every table produced by `generate_step_data`,
`processed_units[t] = min(demand_units[t] + backlog_in[t], capacity_units[t])`
and `backlog_units[t] = max(0, demand_units[t] + backlog_in[t] − processed_units[t])`,
where `backlog_in[t]` is the previous hour's `backlog_units` (0 for the first
hour); consequently `processed_units[t] ≤ demand_units[t] + backlog_units[t-1]`
for `t > 0`. -/
theorem c2_backlog_recurrence (stream : ℕ → ℕ → ℚ) (hashF : String → ℕ)
    (demand_df : List DemandRow) (step : String)
    (step_capacity_base capacity_variability_std downtime_probability
     downtime_severity uphv cycle_time_base congestion_multiplier_max : ℚ)
    (random_state : ℕ) (g : RngState) (i : ℕ)
    (h : i < ((generate_step_data stream hashF demand_df step
      step_capacity_base capacity_variability_std downtime_probability
      downtime_severity uphv cycle_time_base congestion_multiplier_max
      random_state g).1).length) :
    ((i = 0 →
        ((generate_step_data stream hashF demand_df step step_capacity_base
          capacity_variability_std downtime_probability downtime_severity uphv
          cycle_time_base congestion_multiplier_max random_state g).1)[i].processed_units =
          min (((generate_step_data stream hashF demand_df step step_capacity_base
              capacity_variability_std downtime_probability downtime_severity uphv
              cycle_time_base congestion_multiplier_max random_state g).1)[i].demand_units + 0)
            ((generate_step_data stream hashF demand_df step step_capacity_base
              capacity_variability_std downtime_probability downtime_severity uphv
              cycle_time_base congestion_multiplier_max random_state g).1)[i].capacity_units ∧
        ((generate_step_data stream hashF demand_df step step_capacity_base
          capacity_variability_std downtime_probability downtime_severity uphv
          cycle_time_base congestion_multiplier_max random_state g).1)[i].backlog_units =
          max 0 (((generate_step_data stream hashF demand_df step step_capacity_base
            capacity_variability_std downtime_probability downtime_severity uphv
            cycle_time_base congestion_multiplier_max random_state g).1)[i].demand_units + 0 -
            ((generate_step_data stream hashF demand_df step step_capacity_base
              capacity_variability_std downtime_probability downtime_severity uphv
              cycle_time_base congestion_multiplier_max random_state g).1)[i].processed_units)) ∧
      (∀ j (hj : j < ((generate_step_data stream hashF demand_df step
          step_capacity_base capacity_variability_std downtime_probability
          downtime_severity uphv cycle_time_base congestion_multiplier_max
          random_state g).1).length), i = j + 1 →
        ((generate_step_data stream hashF demand_df step step_capacity_base
          capacity_variability_std downtime_probability downtime_severity uphv
          cycle_time_base congestion_multiplier_max random_state g).1)[i].processed_units =
          min (((generate_step_data stream hashF demand_df step step_capacity_base
              capacity_variability_std downtime_probability downtime_severity uphv
              cycle_time_base congestion_multiplier_max random_state g).1)[i].demand_units +
              ((generate_step_data stream hashF demand_df step step_capacity_base
                capacity_variability_std downtime_probability downtime_severity uphv
                cycle_time_base congestion_multiplier_max random_state g).1)[j].backlog_units)
            ((generate_step_data stream hashF demand_df step step_capacity_base
              capacity_variability_std downtime_probability downtime_severity uphv
              cycle_time_base congestion_multiplier_max random_state g).1)[i].capacity_units ∧
        ((generate_step_data stream hashF demand_df step step_capacity_base
          capacity_variability_std downtime_probability downtime_severity uphv
          cycle_time_base congestion_multiplier_max random_state g).1)[i].backlog_units =
          max 0 (((generate_step_data stream hashF demand_df step step_capacity_base
            capacity_variability_std downtime_probability downtime_severity uphv
            cycle_time_base congestion_multiplier_max random_state g).1)[i].demand_units +
            ((generate_step_data stream hashF demand_df step step_capacity_base
              capacity_variability_std downtime_probability downtime_severity uphv
              cycle_time_base congestion_multiplier_max random_state g).1)[j].backlog_units -
            ((generate_step_data stream hashF demand_df step step_capacity_base
              capacity_variability_std downtime_probability downtime_severity uphv
              cycle_time_base congestion_multiplier_max random_state g).1)[i].processed_units) ∧
        ((generate_step_data stream hashF demand_df step step_capacity_base
          capacity_variability_std downtime_probability downtime_severity uphv
          cycle_time_base congestion_multiplier_max random_state g).1)[i].processed_units ≤
          ((generate_step_data stream hashF demand_df step step_capacity_base
            capacity_variability_std downtime_probability downtime_severity uphv
            cycle_time_base congestion_multiplier_max random_state g).1)[i].demand_units +
          ((generate_step_data stream hashF demand_df step step_capacity_base
            capacity_variability_std downtime_probability downtime_severity uphv
            cycle_time_base congestion_multiplier_max random_state g).1)[j].backlog_units)) := by
  exact buildRows_spec step uphv cycle_time_base congestion_multiplier_max _ 0 i h

/-- Concrete single-hour run of the step simulator used to instantiate C2. -/
def c2out : List StepRow :=
  (generate_step_data (fun _ _ => 0) (fun _ => 0) [⟨0, 10⟩] "receive"
    1 1 1 1 1 1 1 0 ⟨0, 0⟩).1

theorem c2_backlog_recurrence_instance :
    (c2out.get ⟨0, by decide⟩).processed_units =
      min ((c2out.get ⟨0, by decide⟩).demand_units + 0)
        (c2out.get ⟨0, by decide⟩).capacity_units ∧
    (c2out.get ⟨0, by decide⟩).backlog_units =
      max 0 ((c2out.get ⟨0, by decide⟩).demand_units + 0 -
        (c2out.get ⟨0, by decide⟩).processed_units) :=
  (c2_backlog_recurrence (fun _ _ => 0) (fun _ => 0) [⟨0, 10⟩] "receive"
    1 1 1 1 1 1 1 0 ⟨0, 0⟩ 0 (by decide)).1 rfl

/-- C3: determinism of the generators. `generate_hourly_demand` and
`generate_step_data` begin by reseeding the global generator from their
arguments, so their entire output is independent of the ambient generator
state: two runs from arbitrary prior states `g1`, `g2` with the same seed and
parameters produce identical outputs. -/
theorem c3_determinism_reseed (stream : ℕ → ℕ → ℚ)
    (choiceFun : ℕ → ℕ → ℕ → ℕ → List ℕ) (hashF : String → ℕ)
    (startDow num_days : ℕ) (base_demand_mean : ℚ)
    (peak_hours : List ℕ) (peak_multiplier off_peak_multiplier : ℚ)
    (weekday_multiplier weekend_multiplier : ℚ)
    (promo_days : ℕ) (promo_multiplier : ℚ)
    (demand_df : List DemandRow) (step : String)
    (step_capacity_base capacity_variability_std downtime_probability
     downtime_severity uphv cycle_time_base congestion_multiplier_max : ℚ)
    (random_state : ℕ) (g1 g2 : RngState) :
    generate_hourly_demand stream choiceFun startDow num_days base_demand_mean
        peak_hours peak_multiplier off_peak_multiplier weekday_multiplier
        weekend_multiplier promo_days promo_multiplier random_state g1 =
      generate_hourly_demand stream choiceFun startDow num_days base_demand_mean
        peak_hours peak_multiplier off_peak_multiplier weekday_multiplier
        weekend_multiplier promo_days promo_multiplier random_state g2 ∧
    generate_step_data stream hashF demand_df step step_capacity_base
        capacity_variability_std downtime_probability downtime_severity uphv
        cycle_time_base congestion_multiplier_max random_state g1 =
      generate_step_data stream hashF demand_df step step_capacity_base
        capacity_variability_std downtime_probability downtime_severity uphv
        cycle_time_base congestion_multiplier_max random_state g2 :=
  ⟨rfl, rfl⟩

/-- C10: `generate_hourly_demand` needs `promo_days ≤ num_days`. Selecting
`promo_days` distinct days from `num_days` without replacement raises when
`promo_days > num_days`; otherwise the generator returns exactly
`24 * num_days` demand rows. -/
theorem c10_promo_days_guard (stream : ℕ → ℕ → ℚ)
    (choiceFun : ℕ → ℕ → ℕ → ℕ → List ℕ)
    (startDow num_days : ℕ) (base_demand_mean : ℚ)
    (peak_hours : List ℕ) (peak_multiplier off_peak_multiplier : ℚ)
    (weekday_multiplier weekend_multiplier : ℚ)
    (promo_days : ℕ) (promo_multiplier : ℚ)
    (random_state : ℕ) (g : RngState) :
    (num_days < promo_days →
      generate_hourly_demand stream choiceFun startDow num_days base_demand_mean
        peak_hours peak_multiplier off_peak_multiplier weekday_multiplier
        weekend_multiplier promo_days promo_multiplier random_state g =
        .error "Cannot take a larger sample than population") ∧
    (promo_days ≤ num_days →
      (generate_hourly_demand stream choiceFun startDow num_days base_demand_mean
          peak_hours peak_multiplier off_peak_multiplier weekday_multiplier
          weekend_multiplier promo_days promo_multiplier random_state g).map
        (fun p => p.1.length) = .ok (24 * num_days)) := by
  constructor
  · intro hlt
    simp [generate_hourly_demand, npChoiceNoReplace, hlt]
  · intro hle
    simp only [generate_hourly_demand, npChoiceNoReplace, npSeed,
      if_neg (Nat.not_lt.mpr hle), Except.map]
    rw [genLoop_length, dayHours_length]

theorem c10_promo_days_guard_instance :
    ((3 : ℕ) < 2 →
      generate_hourly_demand (fun _ _ => 0) (fun _ _ _ _ => []) 0 3 100
        [12] 2 1 1 1 2 3 7 ⟨0, 0⟩ =
        .error "Cannot take a larger sample than population") ∧
    ((2 : ℕ) ≤ 3 →
      (generate_hourly_demand (fun _ _ => 0) (fun _ _ _ _ => []) 0 3 100
          [12] 2 1 1 1 2 3 7 ⟨0, 0⟩).map
        (fun p => p.1.length) = .ok (24 * 3)) :=
  c10_promo_days_guard (fun _ _ => 0) (fun _ _ _ _ => []) 0 3 100
    [12] 2 1 1 1 2 3 7 ⟨0, 0⟩

/-! ## Analytics (src/capacity.py, src/bottleneck.py, src/recommendations.py)

The hourly-per-step table is a list of `Row`s (a pandas DataFrame row with
all the columns these modules read or write; columns a stage has not yet
written hold arbitrary values and are overwritten, never read). -/

structure Row where
  timestamp : ℕ
  date : ℕ
  step : String
  demand_units : ℚ
  capacity_units : ℚ
  processed_units : ℚ
  backlog_units : ℚ
  utilization : ℚ
  cycle_time_min : ℚ
  uph : ℚ
  labor_hours_used : ℚ
  headcount_used : ℤ
  backlog_in : ℚ
  total_demand : ℚ
  service_level_hourly : ℚ
  throughput_loss_units : ℚ
deriving DecidableEq

/-- Row order of `df.sort_values(['step', 'timestamp'])`. -/
def rowLE (a b : Row) : Prop :=
  a.step < b.step ∨ (a.step = b.step ∧ a.timestamp ≤ b.timestamp)

instance : DecidableRel rowLE := fun a b => by
  unfold rowLE
  infer_instance

instance : IsTotal Row rowLE := ⟨by
  intro a b
  rcases lt_trichotomy a.step b.step with h | h | h
  · exact Or.inl (Or.inl h)
  · rcases Nat.le_total a.timestamp b.timestamp with ht | ht
    · exact Or.inl (Or.inr ⟨h, ht⟩)
    · exact Or.inr (Or.inr ⟨h.symm, ht⟩)
  · exact Or.inr (Or.inl h)⟩

instance : IsTrans Row rowLE := ⟨by
  intro a b c hab hbc
  rcases hab with h1 | ⟨e1, t1⟩ <;> rcases hbc with h2 | ⟨e2, t2⟩
  · exact Or.inl (h1.trans h2)
  · exact Or.inl (e2 ▸ h1)
  · exact Or.inl (e1 ▸ h2)
  · exact Or.inr ⟨e1.trans e2, t1.trans t2⟩⟩

/-- Row order of the tables after `df.sort_values` on step and timestamp. -/
def sortRows (df : List Row) : List Row := List.insertionSort rowLE df

/-- The `compute_utilization` row update:
`utilization = (processed / (capacity + 1e-6)).clip(0, 1)`. -/
def utilRow (r : Row) : Row :=
  { r with utilization := clipQ (r.processed_units / (r.capacity_units + eps)) 0 1 }

/-- Embedding of `compute_utilization` (src/capacity.py): recompute the utilization column. -/
def compute_utilization (df : List Row) : List Row := df.map utilRow

/-- Semantics of the grouped `backlog_units` shift by one for a row: the backlog of
the nearest preceding row of the same step, if any. `pre` holds the rows
already scanned, most recent first. -/
def prevBOpt (pre : List Row) (s : String) : Option ℚ :=
  (pre.find? (fun x => x.step = s)).map (fun x => x.backlog_units)

/-- Same with the `.fillna(0)` applied. -/
def prevB (pre : List Row) (s : String) : ℚ := (prevBOpt pre s).getD 0

/-- The `compute_service_level` row update. Note that in the source the
`.clip(0, 1)` is applied to the denominator `total_demand + 1e-6`, not to the
quotient. -/
def slRow (b : ℚ) (r : Row) : Row :=
  { r with
    backlog_in := b
    total_demand := r.demand_units + b
    service_level_hourly := r.processed_units / clipQ (r.demand_units + b + eps) 0 1
    throughput_loss_units := max 0 (r.demand_units + b - r.processed_units) }

/-- Generic stateful scan over the rows of a table: apply `g` to each row
together with the list of previously scanned rows (most recent first). -/
def scanPre {α : Type} (g : List Row → Row → α) :
    List Row → List Row → List α
  | _, [] => []
  | pre, r :: rest => g pre r :: scanPre g (r :: pre) rest

/-- The per-row body of `compute_service_level`. -/
def slStage (pre : List Row) (r : Row) : Row := slRow (prevB pre r.step) r

/-- Embedding of `compute_service_level` (src/capacity.py): sort by (step, timestamp),
take each row's `backlog_in` from the previous row of the same step
(0 when there is none), and recompute `total_demand`,
`service_level_hourly` and `throughput_loss_units`. -/
def compute_service_level (df : List Row) : List Row :=
  scanPre slStage [] (sortRows df)

/-- A one-row input table exercising the service-level computation:
demand 100, no prior backlog, 80 units processed. -/
def c1Row : Row :=
  { timestamp := 0, date := 0, step := "receive", demand_units := 100,
    capacity_units := 100, processed_units := 80, backlog_units := 20,
    utilization := 0, cycle_time_min := 0, uph := 0, labor_hours_used := 0,
    headcount_used := 0, backlog_in := 0, total_demand := 0,
    service_level_hourly := 0, throughput_loss_units := 0 }

/-- C1 (bug): on a single-row table with `demand_units = 100`,
`backlog_in = 0` and `processed_units = 80`, `compute_service_level`
yields `service_level_hourly = 80`, because the source clips the
denominator `total_demand + 1e-6` into `[0, 1]` instead of clipping the
quotient; the documented value `processed / (total_demand + ε)` clamped to
`[0, 1]` would be `0.8`, and in particular the produced value exceeds 1. -/
theorem c1_service_level_denominator_clip_bug :
    (compute_service_level [c1Row]).map (fun r => r.service_level_hourly) = [80] ∧
    ¬ ((80 : ℚ) ≤ 1) ∧
    clipQ (c1Row.processed_units / (c1Row.demand_units + 0 + eps)) 0 1 =
      80000000 / 100000001 := by
  refine ⟨?_, by norm_num, ?_⟩
  · norm_num [compute_service_level, sortRows, List.insertionSort,
      List.orderedInsert, scanPre, slStage, slRow, prevB, prevBOpt,
      List.find?, clipQ, eps, c1Row, min_def, max_def]
  · norm_num [clipQ, eps, c1Row, min_def, max_def]

theorem utilRow_utilRow (r : Row) : utilRow (utilRow r) = utilRow r := rfl

theorem utilRow_slRow (b : ℚ) (r : Row) :
    utilRow (slRow b r) = slRow b (utilRow r) := rfl

theorem slRow_slRow (b : ℚ) (r : Row) : slRow b (slRow b r) = slRow b r := rfl

theorem slRow_step (b : ℚ) (r : Row) : (slRow b r).step = r.step := rfl

theorem slRow_backlog_units (b : ℚ) (r : Row) :
    (slRow b r).backlog_units = r.backlog_units := rfl

theorem prevB_cons (x : Row) (pre : List Row) (s : String) :
    prevB (x :: pre) s = if x.step = s then x.backlog_units else prevB pre s := by
  by_cases h : x.step = s <;> simp [prevB, prevBOpt, List.find?_cons, h]

theorem map_self {α : Type} (f : α → α) :
    ∀ l : List α, (∀ x ∈ l, f x = x) → l.map f = l
  | [], _ => rfl
  | x :: xs, h => by
    rw [List.map_cons, h x (by simp), map_self f xs (fun y hy => h y (by simp [hy]))]

theorem mem_scanPre_slStage :
    ∀ (pre l : List Row) (y : Row), y ∈ scanPre slStage pre l →
      ∃ x ∈ l, ∃ b, y = slRow b x
  | pre, [], y, hy => by simp [scanPre] at hy
  | pre, r :: rest, y, hy => by
    rcases List.mem_cons.1 hy with h | h
    · exact ⟨r, by simp, prevB pre r.step, h⟩
    · obtain ⟨x, hx, b, hb⟩ := mem_scanPre_slStage (r :: pre) rest y h
      exact ⟨x, by simp [hx], b, hb⟩

theorem scanPre_slStage_sorted :
    ∀ (pre l : List Row), List.Sorted rowLE l →
      List.Sorted rowLE (scanPre slStage pre l)
  | pre, [], _ => List.sorted_nil
  | pre, r :: rest, h => by
    rw [List.sorted_cons] at h
    rw [scanPre, List.sorted_cons]
    refine ⟨fun y hy => ?_, scanPre_slStage_sorted (r :: pre) rest h.2⟩
    obtain ⟨x, hx, b, rfl⟩ := mem_scanPre_slStage (r :: pre) rest y hy
    exact h.1 x hx

theorem scanPre_slStage_idem :
    ∀ (l pre1 pre2 : List Row), (∀ s, prevB pre1 s = prevB pre2 s) →
      scanPre slStage pre1 (scanPre slStage pre2 l) = scanPre slStage pre2 l
  | [], pre1, pre2, _ => rfl
  | r :: rest, pre1, pre2, hpre => by
    have hhead : slStage pre1 (slStage pre2 r) = slStage pre2 r := by
      show slRow (prevB pre1 r.step) (slRow (prevB pre2 r.step) r) = _
      rw [hpre r.step]
      exact slRow_slRow _ r
    have hpre2 : ∀ s, prevB (slStage pre2 r :: pre1) s = prevB (r :: pre2) s := by
      intro s
      rw [prevB_cons, prevB_cons]
      by_cases h : r.step = s
      · simp [slStage, slRow_step, slRow_backlog_units, h]
      · simp [slStage, slRow_step, slRow_backlog_units, h, hpre s]
    calc scanPre slStage pre1 (scanPre slStage pre2 (r :: rest))
        = slStage pre1 (slStage pre2 r)
            :: scanPre slStage (slStage pre2 r :: pre1)
              (scanPre slStage (r :: pre2) rest) := rfl
      _ = slStage pre2 r :: scanPre slStage (r :: pre2) rest := by
          rw [hhead, scanPre_slStage_idem rest _ _ hpre2]
      _ = scanPre slStage pre2 (r :: rest) := rfl

theorem scanPre_slStage_util_fixed :
    ∀ (pre l : List Row), (∀ x ∈ l, utilRow x = x) →
      (scanPre slStage pre l).map utilRow = scanPre slStage pre l
  | pre, [], _ => rfl
  | pre, r :: rest, h => by
    have hr : utilRow (slStage pre r) = slStage pre r := by
      show utilRow (slRow (prevB pre r.step) r) = _
      rw [utilRow_slRow, h r (by simp)]
      rfl
    rw [scanPre, List.map_cons, hr,
      scanPre_slStage_util_fixed (r :: pre) rest (fun y hy => h y (by simp [hy]))]

/-- C7: the recomputation stage of the Metrics Aggregator is idempotent —
running `compute_utilization` followed by `compute_service_level` twice
produces exactly the table produced by running the pair once, because both
stages read only the `demand_units`, `capacity_units`, `processed_units` and
`backlog_units` columns, which neither of them writes. -/
theorem c7_recompute_idempotent (df : List Row) :
    compute_service_level (compute_utilization
      (compute_service_level (compute_utilization df))) =
    compute_service_level (compute_utilization df) := by
  have hfix : ∀ x ∈ compute_service_level (compute_utilization df),
      utilRow x = x := by
    intro x hx
    obtain ⟨y, hy, b, rfl⟩ := mem_scanPre_slStage _ _ x hx
    have hy2 : y ∈ compute_utilization df := (List.mem_insertionSort rowLE).1 hy
    obtain ⟨z, _, rfl⟩ := List.mem_map.1 hy2
    rfl
  have hmap : compute_utilization (compute_service_level (compute_utilization df)) =
      compute_service_level (compute_utilization df) :=
    map_self utilRow _ hfix
  have hsorted : List.Sorted rowLE
      (compute_service_level (compute_utilization df)) :=
    scanPre_slStage_sorted [] _ (List.sorted_insertionSort rowLE _)
  calc compute_service_level (compute_utilization
        (compute_service_level (compute_utilization df)))
      = compute_service_level (compute_service_level (compute_utilization df)) := by
        rw [hmap]
    _ = scanPre slStage []
        (sortRows (compute_service_level (compute_utilization df))) := rfl
    _ = scanPre slStage [] (compute_service_level (compute_utilization df)) := by
        rw [sortRows, List.Sorted.insertionSort_eq hsorted]
    _ = compute_service_level (compute_utilization df) :=
        scanPre_slStage_idem _ [] [] (fun _ => rfl)

theorem scanPre_length {α : Type} (g : List Row → Row → α) :
    ∀ (pre l : List Row), (scanPre g pre l).length = l.length
  | _, [] => rfl
  | pre, r :: rest => by
    rw [scanPre, List.length_cons, List.length_cons, scanPre_length g (r :: pre) rest]

theorem scanPre_getElem? {α : Type} (g : List Row → Row → α) :
    ∀ (l pre : List Row) (i : ℕ) (h : i < l.length),
      (scanPre g pre l)[i]? = some (g ((l.take i).reverse ++ pre) l[i])
  | [], _, i, h => absurd h (by simp)
  | r :: rest, pre, 0, _ => by
    rw [scanPre, List.getElem?_cons_zero]
    rfl
  | r :: rest, pre, Nat.succ n, h => by
    have hn : n < rest.length := by simpa using h
    rw [scanPre, List.getElem?_cons_succ, scanPre_getElem? g rest (r :: pre) n hn]
    simp [List.take_succ_cons, List.reverse_cons, List.append_assoc]

theorem prevBOpt_append (A B : List Row) (s : String) :
    prevBOpt (A ++ B) s = (prevBOpt A s).or (prevBOpt B s) := by
  unfold prevBOpt
  rw [List.find?_append]
  cases h : A.find? (fun x => x.step = s) <;> simp [h]

theorem prevBOpt_singleton (r : Row) (s : String) :
    prevBOpt [r] s = if r.step = s then some r.backlog_units else none := by
  by_cases h : r.step = s <;> simp [prevBOpt, List.find?, h]

theorem prevBOpt_rev_take_none :
    ∀ (l : List Row) (i : ℕ) (s : String),
      (∀ j (hj : j < l.length), j < i → l[j].step ≠ s) →
      prevBOpt ((l.take i).reverse) s = none
  | _, 0, _, _ => rfl
  | [], Nat.succ n, s, _ => rfl
  | r :: rest, Nat.succ n, s, h => by
    rw [List.take_succ_cons, List.reverse_cons, prevBOpt_append,
      prevBOpt_rev_take_none rest n s
        (fun j hj hji => h (j + 1) (by simpa using hj) (by omega)),
      prevBOpt_singleton]
    have h0 : r.step ≠ s := by
      have := h 0 (by simp) (by omega)
      simpa using this
    simp [h0]

theorem prevBOpt_rev_take_some :
    ∀ (l : List Row) (i j : ℕ) (hj : j < l.length) (s : String),
      j < i → l[j].step = s →
      (∀ k (hk : k < l.length), j < k → k < i → l[k].step ≠ s) →
      prevBOpt ((l.take i).reverse) s = some l[j].backlog_units
  | [], _, j, hj, _, _, _, _ => absurd hj (by simp)
  | r :: rest, 0, j, hj, s, hji, _, _ => absurd hji (by omega)
  | r :: rest, Nat.succ n, 0, hj, s, hji, hstep, hmax => by
    rw [List.take_succ_cons, List.reverse_cons, prevBOpt_append,
      prevBOpt_rev_take_none rest n s
        (fun k hk hkn => hmax (k + 1) (by simpa using hk) (by omega) (by omega)),
      prevBOpt_singleton]
    simp only [List.getElem_cons_zero] at hstep ⊢
    simp [hstep]
  | r :: rest, Nat.succ n, Nat.succ m, hj, s, hji, hstep, hmax => by
    rw [List.take_succ_cons, List.reverse_cons, prevBOpt_append,
      prevBOpt_rev_take_some rest n m (by simpa using hj) s (by omega)
        (by simpa using hstep)
        (fun k hk hmk hkn =>
          hmax (k + 1) (by simpa using hk) (by omega) (by omega))]
    simp

/-! ## Staffing Recommender (src/recommendations.py) -/

structure SRow extends Row where
  required_units : ℚ
  required_capacity_units : ℚ
  required_labor_hours : ℚ
  recommended_headcount : ℤ
  headcount_gap : ℤ
  labor_cost_impact : ℚ
deriving DecidableEq

/-- The `compute_staffing_recommendations` row update (src/recommendations.py):
required units to hit the target, required capacity, labor hours,
recommended headcount (ceiling), signed headcount gap, and the cost of the
positive part of the gap. -/
def staffRow (service_target : ℚ) (uph_by_step : String → ℚ)
    (wage_per_hour : ℚ) (b : ℚ) (r : Row) : SRow :=
  let ru := r.demand_units + b
  let rc := ru / service_target
  let u := uph_by_step r.step
  let rlh := rc / (u + eps)
  let rh := Int.ceil rlh
  let gap := rh - r.headcount_used
  { toRow := { r with backlog_in := b, uph := u }
    required_units := ru
    required_capacity_units := rc
    required_labor_hours := rlh
    recommended_headcount := rh
    headcount_gap := gap
    labor_cost_impact := ((max 0 gap : ℤ) : ℚ) * wage_per_hour }

/-- The per-row body of `compute_staffing_recommendations`. -/
def staffStage (service_target : ℚ) (uph_by_step : String → ℚ)
    (wage_per_hour : ℚ) (pre : List Row) (r : Row) : SRow :=
  staffRow service_target uph_by_step wage_per_hour (prevB pre r.step) r

/-- Embedding of `compute_staffing_recommendations` (src/recommendations.py): sort by
(step, timestamp), take `backlog_in` from the previous row of the same step,
and compute the staffing columns per row. -/
def compute_staffing_recommendations (service_target : ℚ)
    (uph_by_step : String → ℚ) (wage_per_hour : ℚ) (df : List Row) :
    List SRow :=
  scanPre (staffStage service_target uph_by_step wage_per_hour) []
    (sortRows df)

theorem compute_staffing_getElem (service_target : ℚ)
    (uph_by_step : String → ℚ) (wage_per_hour : ℚ) (df : List Row) (i : ℕ)
    (h : i < (compute_staffing_recommendations service_target uph_by_step
      wage_per_hour df).length)
    (hs : i < (sortRows df).length) :
    (compute_staffing_recommendations service_target uph_by_step
        wage_per_hour df)[i] =
      staffRow service_target uph_by_step wage_per_hour
        (prevB ((sortRows df).take i).reverse (sortRows df)[i].step)
        (sortRows df)[i] := by
  have hkey := scanPre_getElem?
    (staffStage service_target uph_by_step wage_per_hour) (sortRows df) [] i hs
  have h2 := (List.getElem?_eq_getElem h).symm.trans hkey
  have h3 := Option.some.inj h2
  rw [h3, staffStage, List.append_nil]

theorem staffRow_cost_nonpos (service_target : ℚ) (uph_by_step : String → ℚ)
    (wage_per_hour : ℚ) (b : ℚ) (r : Row)
    (h : (staffRow service_target uph_by_step wage_per_hour b r).headcount_gap ≤ 0) :
    (staffRow service_target uph_by_step wage_per_hour b r).labor_cost_impact = 0 := by
  show ((max 0 ((staffRow service_target uph_by_step wage_per_hour b
    r).headcount_gap) : ℤ) : ℚ) * wage_per_hour = 0
  rw [max_eq_left h]
  simp

/-- C6: per record, `compute_staffing_recommendations` sets
`required_units = demand_units + backlog_in`,
`required_capacity_units = required_units / service_target`,
`required_labor_hours = required_capacity_units / (uph + ε)`,
`recommended_headcount = ceil(required_labor_hours)`,
`headcount_gap = recommended_headcount − headcount_used` (possibly negative),
`labor_cost_impact = max(0, headcount_gap) × wage_rate` (so zero whenever the
gap is ≤ 0), where `backlog_in` is the previous same-step row's
`backlog_units` and 0 when there is none. -/
theorem c6_staffing_formulas (service_target : ℚ) (uph_by_step : String → ℚ)
    (wage_per_hour : ℚ) (df : List Row) (out : List SRow)
    (hout : out = compute_staffing_recommendations service_target uph_by_step
      wage_per_hour df)
    (i : ℕ) (h : i < out.length) :
    out[i].required_units = out[i].demand_units + out[i].backlog_in ∧
    out[i].required_capacity_units = out[i].required_units / service_target ∧
    out[i].required_labor_hours =
      out[i].required_capacity_units / (out[i].uph + eps) ∧
    out[i].recommended_headcount = Int.ceil out[i].required_labor_hours ∧
    out[i].headcount_gap = out[i].recommended_headcount - out[i].headcount_used ∧
    out[i].labor_cost_impact =
      ((max 0 out[i].headcount_gap : ℤ) : ℚ) * wage_per_hour ∧
    (out[i].headcount_gap ≤ 0 → out[i].labor_cost_impact = 0) ∧
    ((∀ j (hj : j < out.length), j < i → out[j].step ≠ out[i].step) →
      out[i].backlog_in = 0) ∧
    (∀ j (hj : j < out.length), j < i → out[j].step = out[i].step →
      (∀ k (hk : k < out.length), j < k → k < i → out[k].step ≠ out[i].step) →
      out[i].backlog_in = out[j].backlog_units) := by
  subst hout
  have hlen : (compute_staffing_recommendations service_target uph_by_step
      wage_per_hour df).length = (sortRows df).length :=
    scanPre_length _ _ _
  have hs : i < (sortRows df).length := hlen ▸ h
  have hgi := compute_staffing_getElem service_target uph_by_step wage_per_hour
    df i h hs
  rw [hgi]
  refine ⟨rfl, rfl, rfl, rfl, rfl, rfl,
    staffRow_cost_nonpos _ _ _ _ _, ?_, ?_⟩
  · intro hsteps
    show prevB ((sortRows df).take i).reverse (sortRows df)[i].step = 0
    rw [prevB, prevBOpt_rev_take_none]
    · rfl
    · intro j hj hji
      have hjo : j < (compute_staffing_recommendations service_target
          uph_by_step wage_per_hour df).length := hlen ▸ hj
      have hx := hsteps j hjo hji
      rw [compute_staffing_getElem service_target uph_by_step wage_per_hour
        df j hjo hj] at hx
      exact hx
  · intro j hj hji hstep hmax
    have hjs : j < (sortRows df).length := hlen ▸ hj
    rw [compute_staffing_getElem service_target uph_by_step wage_per_hour
      df j hj hjs] at hstep ⊢
    show prevB ((sortRows df).take i).reverse (sortRows df)[i].step =
      (sortRows df)[j].backlog_units
    rw [prevB, prevBOpt_rev_take_some (sortRows df) i j hjs
      (sortRows df)[i].step hji hstep]
    · rfl
    · intro k hk hjk hki
      have hko : k < (compute_staffing_recommendations service_target
          uph_by_step wage_per_hour df).length := hlen ▸ hk
      have hx := hmax k hko hjk hki
      rw [compute_staffing_getElem service_target uph_by_step wage_per_hour
        df k hko hk] at hx
      exact hx

/-- A generic concrete hourly record used to instantiate the analytics
theorems. -/
def rowA : Row :=
  { timestamp := 0, date := 0, step := "pick", demand_units := 2,
    capacity_units := 5, processed_units := 2, backlog_units := 0,
    utilization := 1, cycle_time_min := 1, uph := 1, labor_hours_used := 2,
    headcount_used := 1, backlog_in := 0, total_demand := 0,
    service_level_hourly := 0, throughput_loss_units := 0 }

/-- Concrete staffing run used to instantiate C6. -/
def c6out : List SRow :=
  compute_staffing_recommendations 1 (fun _ => 1) 3 [rowA]

theorem c6_staffing_formulas_instance :
    (c6out.get ⟨0, by decide⟩).required_units =
      (c6out.get ⟨0, by decide⟩).demand_units +
        (c6out.get ⟨0, by decide⟩).backlog_in ∧
    (c6out.get ⟨0, by decide⟩).required_capacity_units =
      (c6out.get ⟨0, by decide⟩).required_units / 1 ∧
    (c6out.get ⟨0, by decide⟩).required_labor_hours =
      (c6out.get ⟨0, by decide⟩).required_capacity_units /
        ((c6out.get ⟨0, by decide⟩).uph + eps) ∧
    (c6out.get ⟨0, by decide⟩).recommended_headcount =
      Int.ceil (c6out.get ⟨0, by decide⟩).required_labor_hours ∧
    (c6out.get ⟨0, by decide⟩).headcount_gap =
      (c6out.get ⟨0, by decide⟩).recommended_headcount -
        (c6out.get ⟨0, by decide⟩).headcount_used ∧
    (c6out.get ⟨0, by decide⟩).labor_cost_impact =
      ((max 0 (c6out.get ⟨0, by decide⟩).headcount_gap : ℤ) : ℚ) * 3 ∧
    ((c6out.get ⟨0, by decide⟩).headcount_gap ≤ 0 →
      (c6out.get ⟨0, by decide⟩).labor_cost_impact = 0) := by
  have H := c6_staffing_formulas 1 (fun _ => 1) 3 [rowA] c6out rfl 0 (by decide)
  exact ⟨H.1, H.2.1, H.2.2.1, H.2.2.2.1, H.2.2.2.2.1, H.2.2.2.2.2.1,
    H.2.2.2.2.2.2.1⟩

/-! ## Bottleneck Detector (src/bottleneck.py) -/

structure BRow extends Row where
  backlog_change : ℚ
  is_bottleneck : Bool
  bottleneck_step : Option String
deriving DecidableEq

/-- Semantics of the grouped `backlog_units` diff with `fillna(0)` for one row:
the change relative to the previous row of the same step, 0 when there is
none. -/
def bChange (pre : List Row) (r : Row) : ℚ :=
  ((prevBOpt pre r.step).map (fun b => r.backlog_units - b)).getD 0

/-- Semantics of `idxmax` over a group: the first row attaining the maximum of `f`. -/
def argmaxFirst (f : Row → ℚ) : List Row → Option Row
  | [] => none
  | r :: rest =>
    match argmaxFirst f rest with
    | none => some r
    | some m => if f r < f m then some m else some r

/-- Embedding of `get_bottleneck_step` (src/bottleneck.py): if the group's maximum
utilization reaches the threshold, the step of the first row with maximum
utilization; otherwise, if some throughput loss is positive, the step of the
first row with maximum loss; otherwise none. -/
def getBottleneckStep (thr : ℚ) (g : List Row) : Option String :=
  match argmaxFirst (fun r => r.utilization) g with
  | none => none
  | some m =>
    if thr ≤ m.utilization then some m.step
    else
      match argmaxFirst (fun r => r.throughput_loss_units) g with
      | none => none
      | some m2 => if 0 < m2.throughput_loss_units then some m2.step else none

/-- The per-row body of `detect_bottlenecks`: flag the row and attach the
per-timestamp bottleneck step (the merge on `timestamp` gives every row of an
hour the value computed from that hour's group in the sorted table `s`). -/
def bStage (thr : ℚ) (s : List Row) (pre : List Row) (r : Row) : BRow :=
  { toRow := r
    backlog_change := bChange pre r
    is_bottleneck := decide (thr ≤ r.utilization) &&
      (decide (0 < bChange pre r) || decide (0 < r.throughput_loss_units))
    bottleneck_step := getBottleneckStep thr
      (s.filter (fun x => decide (x.timestamp = r.timestamp))) }

/-- Embedding of `detect_bottlenecks` (src/bottleneck.py): sort by (step, timestamp),
compute the per-step backlog change, flag
`utilization ≥ threshold AND (backlog_change > 0 OR throughput_loss > 0)`,
and merge in the per-hour bottleneck step. -/
def detect_bottlenecks (thr : ℚ) (df : List Row) : List BRow :=
  scanPre (bStage thr (sortRows df)) [] (sortRows df)

theorem detectB_getElem (thr : ℚ) (df : List Row) (i : ℕ)
    (h : i < (detect_bottlenecks thr df).length)
    (hs : i < (sortRows df).length) :
    (detect_bottlenecks thr df)[i] =
      bStage thr (sortRows df) ((sortRows df).take i).reverse
        (sortRows df)[i] := by
  have hkey := scanPre_getElem? (bStage thr (sortRows df)) (sortRows df) [] i hs
  have h2 := (List.getElem?_eq_getElem h).symm.trans hkey
  have h3 := Option.some.inj h2
  rw [h3, List.append_nil]

theorem bStage_flag_iff (thr : ℚ) (s pre : List Row) (r : Row) :
    ((bStage thr s pre r).is_bottleneck = true ↔
      (thr ≤ r.utilization ∧
        (0 < bChange pre r ∨ 0 < r.throughput_loss_units))) := by
  simp [bStage]

theorem bStage_flag_mono (thr : ℚ) (s pre : List Row) (r : Row)
    (hu : r.utilization < thr) :
    (bStage thr s pre r).is_bottleneck = false := by
  simp [bStage, not_le.mpr hu]

/-- C4: per record of `detect_bottlenecks`, `is_bottleneck` holds iff
`utilization ≥ threshold` and (`backlog_change > 0` or
`throughput_loss_units > 0`), where `backlog_change` is `backlog_units`
minus the previous same-step row's `backlog_units` (0 when there is none);
in particular a record with utilization below the threshold and zero
throughput loss is never flagged. -/
theorem c4_bottleneck_flag (thr : ℚ) (df : List Row) (out : List BRow)
    (hout : out = detect_bottlenecks thr df) (i : ℕ) (h : i < out.length) :
    (out[i].is_bottleneck = true ↔
      (thr ≤ out[i].utilization ∧
        (0 < out[i].backlog_change ∨ 0 < out[i].throughput_loss_units))) ∧
    ((∀ j (hj : j < out.length), j < i → out[j].step ≠ out[i].step) →
      out[i].backlog_change = 0) ∧
    (∀ j (hj : j < out.length), j < i → out[j].step = out[i].step →
      (∀ k (hk : k < out.length), j < k → k < i → out[k].step ≠ out[i].step) →
      out[i].backlog_change = out[i].backlog_units - out[j].backlog_units) ∧
    (out[i].utilization < thr → out[i].throughput_loss_units = 0 →
      out[i].is_bottleneck = false) := by
  subst hout
  have hlen : (detect_bottlenecks thr df).length = (sortRows df).length :=
    scanPre_length _ _ _
  have hs : i < (sortRows df).length := hlen ▸ h
  have hgi := detectB_getElem thr df i h hs
  rw [hgi]
  refine ⟨bStage_flag_iff thr _ _ _, ?_, ?_, fun hu _ => bStage_flag_mono thr _ _ _ hu⟩
  · intro hsteps
    show ((prevBOpt ((sortRows df).take i).reverse (sortRows df)[i].step).map
      (fun b => (sortRows df)[i].backlog_units - b)).getD 0 = 0
    rw [prevBOpt_rev_take_none]
    · rfl
    · intro j hj hji
      have hjo : j < (detect_bottlenecks thr df).length := hlen ▸ hj
      have hx := hsteps j hjo hji
      rw [detectB_getElem thr df j hjo hj] at hx
      exact hx
  · intro j hj hji hstep hmax
    have hjs : j < (sortRows df).length := hlen ▸ hj
    rw [detectB_getElem thr df j hj hjs] at hstep ⊢
    show ((prevBOpt ((sortRows df).take i).reverse (sortRows df)[i].step).map
      (fun b => (sortRows df)[i].backlog_units - b)).getD 0 =
      (sortRows df)[i].backlog_units - (sortRows df)[j].backlog_units
    rw [prevBOpt_rev_take_some (sortRows df) i j hjs (sortRows df)[i].step hji
      hstep]
    · rfl
    · intro k hk hjk hki
      have hko : k < (detect_bottlenecks thr df).length := hlen ▸ hk
      have hx := hmax k hko hjk hki
      rw [detectB_getElem thr df k hko hk] at hx
      exact hx

theorem c4_bottleneck_flag_instance :
    (((detect_bottlenecks (19 / 20) [rowA]).get ⟨0, by decide⟩).is_bottleneck = true ↔
      ((19 : ℚ) / 20 ≤
          ((detect_bottlenecks (19 / 20) [rowA]).get ⟨0, by decide⟩).utilization ∧
        (0 < ((detect_bottlenecks (19 / 20) [rowA]).get ⟨0, by decide⟩).backlog_change ∨
          0 < ((detect_bottlenecks (19 / 20)
            [rowA]).get ⟨0, by decide⟩).throughput_loss_units))) ∧
    (((detect_bottlenecks (19 / 20) [rowA]).get ⟨0, by decide⟩).utilization < 19 / 20 →
      ((detect_bottlenecks (19 / 20) [rowA]).get ⟨0, by decide⟩).throughput_loss_units = 0 →
      ((detect_bottlenecks (19 / 20) [rowA]).get ⟨0, by decide⟩).is_bottleneck = false) := by
  have H := c4_bottleneck_flag (19 / 20) [rowA]
    (detect_bottlenecks (19 / 20) [rowA]) rfl 0 (by decide)
  exact ⟨H.1, H.2.2.2⟩

theorem argmaxFirst_eq_none (f : Row → ℚ) :
    ∀ l : List Row, argmaxFirst f l = none ↔ l = []
  | [] => by simp [argmaxFirst]
  | r :: rest => by
    cases h : argmaxFirst f rest with
    | none => simp [argmaxFirst, h]
    | some m =>
      rw [argmaxFirst, h]
      constructor
      · intro hc
        by_cases hlt : f r < f m <;> simp [hlt] at hc
      · intro hc
        exact absurd hc (by simp)

theorem argmaxFirst_spec (f : Row → ℚ) :
    ∀ l : List Row, l ≠ [] →
      ∃ l1 m l2, l = l1 ++ m :: l2 ∧ argmaxFirst f l = some m ∧
        (∀ x ∈ l, f x ≤ f m) ∧ (∀ x ∈ l1, f x < f m)
  | [], h => absurd rfl h
  | r :: rest, _ => by
    cases hrest : argmaxFirst f rest with
    | none =>
      have hre : rest = [] := (argmaxFirst_eq_none f rest).1 hrest
      subst hre
      refine ⟨[], r, [], rfl, rfl, ?_, by simp⟩
      intro x hx
      rcases List.mem_singleton.1 hx with rfl
      exact le_refl _
    | some m =>
      have hne : rest ≠ [] := by
        intro he
        subst he
        simp [argmaxFirst] at hrest
      obtain ⟨l1, mm, l2, hdec, hm, hub, hfirst⟩ := argmaxFirst_spec f rest hne
      have hmm : mm = m := Option.some.inj (hm.symm.trans hrest)
      subst hmm
      by_cases hlt : f r < f mm
      · refine ⟨r :: l1, mm, l2, by rw [hdec]; rfl, ?_, ?_, ?_⟩
        · rw [argmaxFirst, hrest]
          simp [hlt]
        · intro x hx
          rcases List.mem_cons.1 hx with rfl | hx
          · exact le_of_lt hlt
          · exact hub x hx
        · intro x hx
          rcases List.mem_cons.1 hx with rfl | hx
          · exact hlt
          · exact hfirst x hx
      · refine ⟨[], r, rest, rfl, ?_, ?_, by simp⟩
        · rw [argmaxFirst, hrest]
          simp [hlt]
        · intro x hx
          rcases List.mem_cons.1 hx with rfl | hx
          · exact le_refl _
          · exact le_trans (hub x hx) (not_lt.1 hlt)

/-- C5: per-hour bottleneck-step selection. On a nonempty group: if some
row's utilization reaches the threshold, `get_bottleneck_step` returns the
step of the first row attaining the maximum utilization; otherwise, if some
row has positive throughput loss, the step of the first row attaining the
maximum loss; otherwise none. In `detect_bottlenecks` every row's
`bottleneck_step` is computed from the group of rows sharing its timestamp,
so rows with equal timestamps carry equal `bottleneck_step` values. -/
theorem c5_bottleneck_selection (thr : ℚ) (g : List Row) (df : List Row)
    (out : List BRow) (hout : out = detect_bottlenecks thr df)
    (hne : g ≠ []) :
    ((∃ r ∈ g, thr ≤ r.utilization) →
      ∃ l1 m l2, g = l1 ++ m :: l2 ∧ getBottleneckStep thr g = some m.step ∧
        thr ≤ m.utilization ∧ (∀ x ∈ g, x.utilization ≤ m.utilization) ∧
        (∀ x ∈ l1, x.utilization < m.utilization)) ∧
    ((∀ r ∈ g, r.utilization < thr) →
      (∃ r ∈ g, 0 < r.throughput_loss_units) →
      ∃ l1 m l2, g = l1 ++ m :: l2 ∧ getBottleneckStep thr g = some m.step ∧
        0 < m.throughput_loss_units ∧
        (∀ x ∈ g, x.throughput_loss_units ≤ m.throughput_loss_units) ∧
        (∀ x ∈ l1, x.throughput_loss_units < m.throughput_loss_units)) ∧
    ((∀ r ∈ g, r.utilization < thr) →
      (∀ r ∈ g, r.throughput_loss_units ≤ 0) →
      getBottleneckStep thr g = none) ∧
    (∀ i (hi : i < out.length),
      out[i].bottleneck_step = getBottleneckStep thr
        ((sortRows df).filter
          (fun x => decide (x.timestamp = out[i].timestamp)))) ∧
    (∀ i j (hi : i < out.length) (hj : j < out.length),
      out[i].timestamp = out[j].timestamp →
      out[i].bottleneck_step = out[j].bottleneck_step) := by
  subst hout
  have hlen : (detect_bottlenecks thr df).length = (sortRows df).length :=
    scanPre_length _ _ _
  refine ⟨?_, ?_, ?_, ?_, ?_⟩
  · rintro ⟨r0, hr0, hthr⟩
    obtain ⟨l1, m, l2, hdec, hm, hub, hfirst⟩ :=
      argmaxFirst_spec (fun r => r.utilization) g hne
    have hmthr : thr ≤ m.utilization := le_trans hthr (hub r0 hr0)
    refine ⟨l1, m, l2, hdec, ?_, hmthr, hub, hfirst⟩
    simp [getBottleneckStep, hm, hmthr]
  · intro hall hloss
    obtain ⟨r0, hr0, hr0pos⟩ := hloss
    obtain ⟨_, m, _, hdec, hm, hub, _⟩ :=
      argmaxFirst_spec (fun r => r.utilization) g hne
    have hmlt : ¬ thr ≤ m.utilization := by
      refine not_le.mpr (hall m ?_)
      rw [hdec]
      simp
    obtain ⟨l1, m2, l2, hdec2, hm2, hub2, hfirst2⟩ :=
      argmaxFirst_spec (fun r => r.throughput_loss_units) g hne
    have hm2pos : 0 < m2.throughput_loss_units :=
      lt_of_lt_of_le hr0pos (hub2 r0 hr0)
    refine ⟨l1, m2, l2, hdec2, ?_, hm2pos, hub2, hfirst2⟩
    simp [getBottleneckStep, hm, hm2, hmlt, hm2pos]
  · intro hall hnone
    obtain ⟨_, m, _, hdec, hm, _, _⟩ :=
      argmaxFirst_spec (fun r => r.utilization) g hne
    have hmlt : ¬ thr ≤ m.utilization := by
      refine not_le.mpr (hall m ?_)
      rw [hdec]
      simp
    obtain ⟨_, m2, _, hdec2, hm2, _, _⟩ :=
      argmaxFirst_spec (fun r => r.throughput_loss_units) g hne
    have hm2np : ¬ 0 < m2.throughput_loss_units := by
      refine not_lt.mpr (hnone m2 ?_)
      rw [hdec2]
      simp
    simp [getBottleneckStep, hm, hm2, hmlt, hm2np]
  · intro i hi
    have his : i < (sortRows df).length := hlen ▸ hi
    rw [detectB_getElem thr df i hi his]
    rfl
  · intro i j hi hj hts
    have his : i < (sortRows df).length := hlen ▸ hi
    have hjs : j < (sortRows df).length := hlen ▸ hj
    rw [detectB_getElem thr df i hi his, detectB_getElem thr df j hj hjs]
      at hts ⊢
    exact congrArg (fun t => getBottleneckStep thr
      ((sortRows df).filter (fun x => decide (x.timestamp = t)))) hts

theorem c5_bottleneck_selection_instance :
    getBottleneckStep (1 / 2) [rowA] = some "pick" := by
  obtain ⟨l1, m, l2, hdec, hres, _, _, _⟩ :=
    (c5_bottleneck_selection (1 / 2) [rowA] [] [] rfl (by decide)).1
      ⟨rowA, by simp, by norm_num [rowA]⟩
  have hm : m = rowA := by
    cases l1 with
    | nil =>
      simp only [List.nil_append, List.cons.injEq] at hdec
      exact hdec.1.symm
    | cons a t => simp at hdec
  rw [hres, hm]
  rfl

/-! ## Daily aggregation (src/capacity.py, aggregate_daily_metrics) -/

structure AggRow where
  date : ℕ
  step : String
  demand_units : ℚ
  capacity_units : ℚ
  processed_units : ℚ
  backlog_units : ℚ
  utilization : ℚ
  cycle_time_min : ℚ
  service_level_hourly : ℚ
  throughput_loss_units : ℚ
  labor_hours_used : ℚ
  headcount_used : ℤ
deriving DecidableEq

/-- The rows of a `groupby(['date', 'step'])` group. -/
def groupRows (df : List Row) (d : ℕ) (s : String) : List Row :=
  df.filter (fun r => decide (r.date = d ∧ r.step = s))

/-- Embedding of `aggregate_daily_metrics` (src/capacity.py): group by (date, step);
sum `demand_units`, `capacity_units`, `processed_units`,
`throughput_loss_units`, `labor_hours_used` and `headcount_used`; average
`backlog_units`, `utilization`, `cycle_time_min` and `service_level_hourly`. -/
def aggregate_daily_metrics (df : List Row) : List AggRow :=
  ((df.map (fun r => (r.date, r.step))).dedup).map (fun k =>
    { date := k.1
      step := k.2
      demand_units := ((groupRows df k.1 k.2).map (fun r => r.demand_units)).sum
      capacity_units :=
        ((groupRows df k.1 k.2).map (fun r => r.capacity_units)).sum
      processed_units :=
        ((groupRows df k.1 k.2).map (fun r => r.processed_units)).sum
      backlog_units :=
        ((groupRows df k.1 k.2).map (fun r => r.backlog_units)).sum /
          ((groupRows df k.1 k.2).length : ℚ)
      utilization :=
        ((groupRows df k.1 k.2).map (fun r => r.utilization)).sum /
          ((groupRows df k.1 k.2).length : ℚ)
      cycle_time_min :=
        ((groupRows df k.1 k.2).map (fun r => r.cycle_time_min)).sum /
          ((groupRows df k.1 k.2).length : ℚ)
      service_level_hourly :=
        ((groupRows df k.1 k.2).map (fun r => r.service_level_hourly)).sum /
          ((groupRows df k.1 k.2).length : ℚ)
      throughput_loss_units :=
        ((groupRows df k.1 k.2).map (fun r => r.throughput_loss_units)).sum
      labor_hours_used :=
        ((groupRows df k.1 k.2).map (fun r => r.labor_hours_used)).sum
      headcount_used :=
        ((groupRows df k.1 k.2).map (fun r => r.headcount_used)).sum })

/-- C8: in the daily-per-step aggregate, flow quantities are the sums of the
corresponding hourly values over the (date, step) group — in particular
`processed_units` — and level quantities are their arithmetic means; every
(date, step) pair occurring in the hourly table has an aggregate row. -/
theorem c8_daily_aggregation (df : List Row) (out : List AggRow)
    (hout : out = aggregate_daily_metrics df) :
    (∀ i (hi : i < out.length),
      out[i].processed_units =
        ((groupRows df out[i].date out[i].step).map
          (fun r => r.processed_units)).sum ∧
      out[i].demand_units =
        ((groupRows df out[i].date out[i].step).map
          (fun r => r.demand_units)).sum ∧
      out[i].capacity_units =
        ((groupRows df out[i].date out[i].step).map
          (fun r => r.capacity_units)).sum ∧
      out[i].throughput_loss_units =
        ((groupRows df out[i].date out[i].step).map
          (fun r => r.throughput_loss_units)).sum ∧
      out[i].labor_hours_used =
        ((groupRows df out[i].date out[i].step).map
          (fun r => r.labor_hours_used)).sum ∧
      out[i].headcount_used =
        ((groupRows df out[i].date out[i].step).map
          (fun r => r.headcount_used)).sum ∧
      out[i].backlog_units =
        ((groupRows df out[i].date out[i].step).map
          (fun r => r.backlog_units)).sum /
          ((groupRows df out[i].date out[i].step).length : ℚ) ∧
      out[i].utilization =
        ((groupRows df out[i].date out[i].step).map
          (fun r => r.utilization)).sum /
          ((groupRows df out[i].date out[i].step).length : ℚ) ∧
      out[i].cycle_time_min =
        ((groupRows df out[i].date out[i].step).map
          (fun r => r.cycle_time_min)).sum /
          ((groupRows df out[i].date out[i].step).length : ℚ) ∧
      out[i].service_level_hourly =
        ((groupRows df out[i].date out[i].step).map
          (fun r => r.service_level_hourly)).sum /
          ((groupRows df out[i].date out[i].step).length : ℚ)) ∧
    (∀ j (hj : j < df.length), ∃ i, ∃ hi : i < out.length,
      out[i].date = df[j].date ∧ out[i].step = df[j].step) := by
  subst hout
  constructor
  · intro i hi
    have hik : i < ((df.map (fun r => (r.date, r.step))).dedup).length := by
      simpa [aggregate_daily_metrics] using hi
    simp [aggregate_daily_metrics, List.getElem_map]
  · intro j hj
    have hmem : (df[j].date, df[j].step) ∈
        (df.map (fun r => (r.date, r.step))).dedup :=
      List.mem_dedup.mpr (List.mem_map.mpr ⟨df[j], List.getElem_mem hj, rfl⟩)
    obtain ⟨i, hik, hik2⟩ := List.getElem_of_mem hmem
    refine ⟨i, by simpa [aggregate_daily_metrics] using hik, ?_, ?_⟩ <;>
      simp only [aggregate_daily_metrics, List.getElem_map, hik2]

/-- Concrete aggregation run used to instantiate C8. -/
def c8out : List AggRow := aggregate_daily_metrics [rowA]

theorem c8_daily_aggregation_instance :
    (c8out.get ⟨0, by decide⟩).processed_units =
      ((groupRows [rowA] (c8out.get ⟨0, by decide⟩).date
        (c8out.get ⟨0, by decide⟩).step).map
          (fun r => r.processed_units)).sum ∧
    (c8out.get ⟨0, by decide⟩).utilization =
      ((groupRows [rowA] (c8out.get ⟨0, by decide⟩).date
        (c8out.get ⟨0, by decide⟩).step).map
          (fun r => r.utilization)).sum /
        ((groupRows [rowA] (c8out.get ⟨0, by decide⟩).date
          (c8out.get ⟨0, by decide⟩).step).length : ℚ) := by
  have H := (c8_daily_aggregation [rowA] c8out rfl).1 0 (by decide)
  exact ⟨H.1, H.2.2.2.2.2.2.2.1⟩

/-! ## Schema validation (src/preprocess.py) -/

/-- One column of a raw table, as seen by the schema check: its name and
whether its dtype is numeric. -/
structure Col where
  name : String
  numeric : Bool
deriving DecidableEq

def required_columns : List String :=
  ["timestamp", "step", "demand_units", "capacity_units", "processed_units",
   "backlog_units", "utilization", "cycle_time_min", "uph",
   "labor_hours_used", "headcount_used"]

def hasCol (df : List Col) (c : String) : Bool :=
  (df.find? (fun col => col.name = c)).isSome

def colNumeric (df : List Col) (c : String) : Bool :=
  match df.find? (fun col => col.name = c) with
  | some col => col.numeric
  | none => false

/-- The structured content of the `ValueError`s raised by `validate_schema`:
either the set of missing columns, or the single column named by a failed
numeric check. -/
inductive SchemaError where
  | missingColumns (cols : List String)
  | notNumeric (col : String)
deriving DecidableEq

/-- The columns an error message names. -/
def namedCols : SchemaError → List String
  | .missingColumns cs => cs
  | .notNumeric c => [c]

/-- The set of missing required columns. -/
def missingCols (df : List Col) : List String :=
  required_columns.filter (fun c => !hasCol df c)

/-- Embedding of `validate_schema` (src/preprocess.py): raise with all missing required
columns at once; otherwise check `demand_units`, `capacity_units`,
`processed_units` for numeric dtype in that order, raising at the first
failure. -/
def validate_schema (df : List Col) : Except SchemaError Unit :=
  if missingCols df ≠ [] then .error (.missingColumns (missingCols df))
  else if colNumeric df "demand_units" = false then
    .error (.notNumeric "demand_units")
  else if colNumeric df "capacity_units" = false then
    .error (.notNumeric "capacity_units")
  else if colNumeric df "processed_units" = false then
    .error (.notNumeric "processed_units")
  else .ok ()

/-- A frame with every required column present, `demand_units` and
`capacity_units` non-numeric, the rest numeric. -/
def c9Frame : List Col :=
  [⟨"timestamp", false⟩, ⟨"step", false⟩, ⟨"demand_units", false⟩,
   ⟨"capacity_units", false⟩, ⟨"processed_units", true⟩,
   ⟨"backlog_units", true⟩, ⟨"utilization", true⟩,
   ⟨"cycle_time_min", true⟩, ⟨"uph", true⟩,
   ⟨"labor_hours_used", true⟩, ⟨"headcount_used", true⟩]

/-- C9 (counterexample): on a frame where both `demand_units` and
`capacity_units` fail the numeric check, `validate_schema` raises naming only
`demand_units` — the error does not name every failing column. -/
theorem c9_first_numeric_failure_only :
    validate_schema c9Frame = .error (.notNumeric "demand_units") ∧
    colNumeric c9Frame "capacity_units" = false ∧
    "capacity_units" ∉ namedCols (SchemaError.notNumeric "demand_units") :=
  ⟨rfl, by decide, by decide⟩

/-- C9 (amended): `validate_schema` succeeds exactly when every required
column is present and the three flow columns are numeric; when columns are
missing it raises one error naming exactly the missing columns (and no
numeric failures); when none are missing it checks `demand_units`,
`capacity_units`, `processed_units` in order and raises for the first
non-numeric column only. -/
theorem c9_validate_schema_behavior (df : List Col) :
    (validate_schema df = .ok () ↔
      ((∀ c ∈ required_columns, hasCol df c = true) ∧
        colNumeric df "demand_units" = true ∧
        colNumeric df "capacity_units" = true ∧
        colNumeric df "processed_units" = true)) ∧
    ((∃ c ∈ required_columns, ¬ hasCol df c = true) →
      validate_schema df = .error (.missingColumns (missingCols df)) ∧
      (∀ c, c ∈ missingCols df ↔
        (c ∈ required_columns ∧ ¬ hasCol df c = true))) ∧
    ((∀ c ∈ required_columns, hasCol df c = true) →
      colNumeric df "demand_units" = false →
      validate_schema df = .error (.notNumeric "demand_units")) ∧
    ((∀ c ∈ required_columns, hasCol df c = true) →
      colNumeric df "demand_units" = true →
      colNumeric df "capacity_units" = false →
      validate_schema df = .error (.notNumeric "capacity_units")) ∧
    ((∀ c ∈ required_columns, hasCol df c = true) →
      colNumeric df "demand_units" = true →
      colNumeric df "capacity_units" = true →
      colNumeric df "processed_units" = false →
      validate_schema df = .error (.notNumeric "processed_units")) := by
  have hfilter : ∀ c, c ∈ missingCols df ↔
      (c ∈ required_columns ∧ ¬ hasCol df c = true) := by
    intro c
    simp [missingCols, List.mem_filter]
  have hempty : missingCols df = [] ↔
      (∀ c ∈ required_columns, hasCol df c = true) := by
    rw [missingCols, List.filter_eq_nil_iff]
    constructor
    · intro hall c hc
      simpa using hall c hc
    · intro hall c hc
      simpa using hall c hc
  refine ⟨?_, ?_, ?_, ?_, ?_⟩
  · unfold validate_schema
    split_ifs with h1 h2 h3 h4
    · constructor
      · intro hc
        exact absurd hc (by simp)
      · rintro ⟨hall, -⟩
        exact absurd (hempty.mpr hall) h1
    · constructor
      · intro hc
        exact absurd hc (by simp)
      · rintro ⟨-, hd, -⟩
        rw [hd] at h2
        exact absurd h2 (by simp)
    · constructor
      · intro hc
        exact absurd hc (by simp)
      · rintro ⟨-, -, hcap, -⟩
        rw [hcap] at h3
        exact absurd h3 (by simp)
    · constructor
      · intro hc
        exact absurd hc (by simp)
      · rintro ⟨-, -, -, hp⟩
        rw [hp] at h4
        exact absurd h4 (by simp)
    · have hmiss : ∀ c ∈ required_columns, hasCol df c = true :=
        hempty.mp (by simpa using h1)
      simp only [Bool.not_eq_false] at h2 h3 h4
      exact ⟨fun _ => ⟨hmiss, h2, h3, h4⟩, fun _ => rfl⟩
  · intro hex
    have hne : missingCols df ≠ [] := by
      intro he
      obtain ⟨c, hc, hnc⟩ := hex
      exact hnc (hempty.mp he c hc)
    refine ⟨?_, hfilter⟩
    unfold validate_schema
    rw [if_pos hne]
  · intro hall hd
    unfold validate_schema
    rw [if_neg (by simp [hempty.mpr hall]), if_pos hd]
  · intro hall hd hcap
    unfold validate_schema
    rw [if_neg (by simp [hempty.mpr hall]), if_neg (by simp [hd]),
      if_pos hcap]
  · intro hall hd hcap hp
    unfold validate_schema
    rw [if_neg (by simp [hempty.mpr hall]), if_neg (by simp [hd]),
      if_neg (by simp [hcap]), if_pos hp]

theorem c9_validate_schema_behavior_instance :
    validate_schema c9Frame = .error (.notNumeric "demand_units") :=
  (c9_validate_schema_behavior c9Frame).2.2.1 (by decide) (by decide)

end FC

